import Mathlib

/-!
Verification of the hive graph-execution engine and its credential preflight.

The credential preflight is embedded from `core/framework/credentials/validation.py`.
The execution engine (`framework/graph/executor.py`) and the graph data model
(`framework/graph/node.py`, `edge.py`, `goal.py`) are exercised only through the
test suite `core/tests/test_executor_max_retries.py`; their behaviour is modelled
from the specification (sections 3 and 4.1) and checked against those tests.
-/

/-! ## Graph data model -/

/-- Modelled from the spec (section 3): `NodeSpec` — one step's declaration.
The declaring module `framework/graph/node.py` is not in the sources; fields and
defaults follow the spec's data model (`max_retries` is an integer that is at
least zero and defaults to 3) and the constructions in the test suite. -/
structure NodeSpec where
  id : String
  name : String
  node_type : String := ""
  tools : List String := []
  max_retries : Nat := 3
  input_keys : List String := []
  output_keys : List String := []

/-- Modelled from the spec (section 3): `GraphSpec` — one run's shape.
The declaring module `framework/graph/edge.py` is not in the sources. Edges are
directed id-to-id transitions. -/
structure GraphSpec where
  name : String
  entry_node : String
  nodes : List NodeSpec
  edges : List (String × String) := []
  terminal_nodes : List String := []

/-- Modelled from the spec (section 3): `Goal` — opaque objective context. -/
structure Goal where
  id : String
  name : String
  description : String

/-- Modelled from the spec (section 3): `NodeContext` — the immutable per-attempt
snapshot handed to a node: inputs restricted to its `input_keys`, the node id,
the 1-based attempt number, and the goal reference. -/
structure NodeContext where
  node_id : String
  attempt : Nat
  inputs : List (String × String)
  goal : Goal

/-- Modelled from the spec (section 3): `NodeResult` — the tagged outcome of one
attempt, either success with an output mapping or failure with an error text. -/
structure NodeResult where
  success : Bool
  output : List (String × String) := []
  error : String := ""

/-- Modelled from the spec (section 3): `ExecutionResult` — the run's final
outcome: success flag, the shared state at completion, and an error text that is
present only on failure. -/
structure ExecutionResult where
  success : Bool
  output : List (String × String)
  error : Option String
deriving DecidableEq

/-- A node capability: one operation executing a single attempt (spec 4.2). -/
abbrev NodeImpl : Type := NodeContext → NodeResult

/-! ## Execution engine, modelled from the spec (section 4.1) -/

/-- Whether `x` is the id of a declared node of the graph. -/
def declared (g : GraphSpec) (x : String) : Bool :=
  (g.nodes.map (fun n => n.id)).contains x

/-- Modelled from the spec (section 4.1 step 1): graph validation collects, in
one pass, every edge endpoint, entry-node or terminal reference that does not
resolve to a declared node, and every declared node without a registered
implementation. The executor module is not in the sources; the violation
message texts are representative. -/
def validateGraph (reg : List (String × NodeImpl)) (g : GraphSpec) : List String :=
  (g.edges.flatMap (fun e =>
    (if declared g e.1 then [] else ["edge source not declared: " ++ e.1]) ++
    (if declared g e.2 then [] else ["edge target not declared: " ++ e.2])))
  ++ (if declared g g.entry_node then [] else ["entry node not declared: " ++ g.entry_node])
  ++ (g.terminal_nodes.flatMap (fun t =>
    if declared g t then [] else ["terminal node not declared: " ++ t]))
  ++ (g.nodes.flatMap (fun n =>
    if (reg.lookup n.id).isSome then [] else ["no implementation registered for node: " ++ n.id]))

/-- The spec's well-formedness conditions for a graph, stated directly from the
spec's words (section 4.1 step 1): every edge endpoint, the entry node and every
terminal entry resolve to a declared node, and every declared node has a
registered implementation. Used to check that `validateGraph` accepts exactly
the well-formed graphs. -/
def graphWellFormed (reg : List (String × NodeImpl)) (g : GraphSpec) : Bool :=
  g.edges.all (fun e => declared g e.1 && declared g e.2)
  && declared g g.entry_node
  && g.terminal_nodes.all (fun t => declared g t)
  && g.nodes.all (fun n => (reg.lookup n.id).isSome)

/-- Restrict the shared state to the node's declared input keys; `none` when a
required key is missing (spec 4.1 step 4b). -/
def snapshotInputs (st : List (String × String)) : List String → Option (List (String × String))
  | [] => some []
  | k :: ks =>
    match st.lookup k, snapshotInputs st ks with
    | some v, some rest => some ((k, v) :: rest)
    | _, _ => none

/-- Set one key of the shared state. -/
def stateSet (st : List (String × String)) (k v : String) : List (String × String) :=
  (k, v) :: st.filter (fun p => p.1 != k)

/-- Modelled from the spec (section 4.1 step 4c): merge a successful attempt's
output into shared state under the node's declared output keys. -/
def mergeOutput (st : List (String × String)) (keys : List String)
    (out : List (String × String)) : List (String × String) :=
  keys.foldl (fun s k =>
    match out.lookup k with
    | some v => stateSet s k v
    | none => s) st

/-- Modelled from the spec (section 4.1 step 4c): the retry loop. `rem` is the
number of attempts still allowed after the current one and `a` the 1-based
attempt number. Invokes the node once per attempt; stops at the first success
or when the budget is exhausted. Returns the final `NodeResult` together with
the number of invocations performed (the last attempt number). -/
def runAttempts (impl : NodeImpl) (mk : Nat → NodeContext) : Nat → Nat → NodeResult × Nat
  | 0, a => (impl (mk a), a)
  | rem + 1, a =>
    let res := impl (mk a)
    if res.success then (res, a) else runAttempts impl mk rem (a + 1)

/-- Modelled from the spec (section 4.1 steps 3-4): the traversal loop. `fuel`
bounds the number of node visits (the spec's while-loop; the bound is a
modelling device, ample for the acyclic graphs the claims concern). Alongside
the `ExecutionResult` it returns the per-visit invocation counts, one
`(node id, invocations)` entry per visited node, recording how often each
node's execute operation ran. -/
def execLoop (reg : List (String × NodeImpl)) (g : GraphSpec) (goal : Goal) :
    Nat → String → List (String × String) → List (String × Nat) →
    ExecutionResult × List (String × Nat)
  | 0, _, st, counts => (⟨false, st, some "execution fuel exhausted"⟩, counts)
  | fuel + 1, current, st, counts =>
    match reg.lookup current, g.nodes.find? (fun n => n.id == current) with
    | some impl, some nspec =>
      match snapshotInputs st nspec.input_keys with
      | none => (⟨false, st, some ("missing input for node: " ++ current)⟩, counts)
      | some snap =>
        let run := runAttempts impl (fun a => ⟨current, a, snap, goal⟩) nspec.max_retries 1
        let counts2 := counts ++ [(current, run.2)]
        if run.1.success then
          let st2 := mergeOutput st nspec.output_keys run.1.output
          match g.edges.find? (fun e => e.1 == current) with
          | none => (⟨true, st2, none⟩, counts2)
          | some e => execLoop reg g goal fuel e.2 st2 counts2
        else
          (⟨false, st,
            some ("failed after " ++ toString nspec.max_retries ++ " attempts: " ++ run.1.error)⟩,
           counts2)
    | _, _ => (⟨false, st, some ("no implementation registered for node: " ++ current)⟩, counts)

/-- Modelled from the spec (section 4.1): `execute(graph, goal, initial_state)`.
Validates the graph first; on any violation it returns one configuration error
listing all of them and performs no node invocation (the empty counts list).
Otherwise it copies the initial state and walks the graph from the entry node. -/
def execute (reg : List (String × NodeImpl)) (g : GraphSpec) (goal : Goal)
    (initial_state : List (String × String)) : ExecutionResult × List (String × Nat) :=
  let violations := validateGraph reg g
  if violations.isEmpty then
    execLoop reg g goal (g.edges.length + 1) g.entry_node initial_state []
  else
    (⟨false, initial_state,
      some ("configuration error: " ++ String.intercalate "; " violations)⟩, [])

/-! ## Test nodes, from `core/tests/test_executor_max_retries.py` -/

/-- From the tests: a node that fails `fail_times` attempts and then succeeds
(`FlakyTestNode`); within a single visit its attempt counter equals the
context's attempt number. -/
def FlakyTestNode (fail_times : Nat) : NodeImpl := fun ctx =>
  if ctx.attempt ≤ fail_times then
    { success := false, error := "Transient error (attempt " ++ toString ctx.attempt ++ ")" }
  else
    { success := true,
      output := [("result", "succeeded after " ++ toString ctx.attempt ++ " attempts")] }

/-- From the tests: a node that fails every attempt (`AlwaysFailsNode`). -/
def AlwaysFailsNode : NodeImpl := fun ctx =>
  { success := false, error := "Permanent error (attempt " ++ toString ctx.attempt ++ ")" }

/-- The single-node test graph used by the retry tests: one node with the given
retry budget, which is both entry and terminal, and no edges. -/
def testNode (M : Nat) : NodeSpec :=
  { id := "n1", name := "N1", node_type := "function", max_retries := M,
    output_keys := ["result"] }

/-- The graph wrapping `testNode`. -/
def testGraph (M : Nat) : GraphSpec :=
  { name := "Test Graph", entry_node := "n1", nodes := [testNode M],
    edges := [], terminal_nodes := ["n1"] }

/-- The goal used by the tests; traversal does not depend on it. -/
def testGoal : Goal := ⟨"test_goal", "Test Goal", "Test retry behaviour"⟩

/-- Substring test on strings, used to state "the error contains ...". -/
def listPrefixOf : List Char → List Char → Bool
  | [], _ => true
  | _ :: _, [] => false
  | a :: as, b :: bs => a == b && listPrefixOf as bs

/-- Whether `pat` occurs as a contiguous sublist. -/
def listOccurs (pat : List Char) : List Char → Bool
  | [] => pat.isEmpty
  | c :: cs => listPrefixOf pat (c :: cs) || listOccurs pat cs

/-- Whether `pat` occurs as a substring of `s`. -/
def strContains (s pat : String) : Bool := listOccurs pat.data s.data

example : strContains "failed after 3 attempts: x" "failed after 3 attempts" = true := by decide

example :
    (execute [("n1", FlakyTestNode 5)] (testGraph 10) testGoal []).2 = [("n1", 6)] := by decide

/-! ## Lemmas about the retry loop -/

/-- A `List.flatMap` is empty exactly when every element maps to the empty list. -/
theorem flatMap_nil_iff {α β : Type} (f : α → List β) :
    ∀ l : List α, (l.flatMap f = [] ↔ ∀ x ∈ l, f x = []) := by
  intro l
  induction l with
  | nil => simp
  | cons x xs ih => simp [List.flatMap_cons, List.append_eq_nil, ih]

/-- If the node fails exactly on attempts `≤ F` and the budget reaches attempt
`F + 1`, the retry loop stops at attempt `F + 1` with that attempt's result. -/
theorem runAttempts_eventual_success (impl : NodeImpl) (mk : Nat → NodeContext) (F : Nat)
    (h : ∀ a, (impl (mk a)).success = decide (F < a)) :
    ∀ rem a, a ≤ F + 1 → F + 1 ≤ a + rem →
      runAttempts impl mk rem a = (impl (mk (F + 1)), F + 1) := by
  intro rem
  induction rem with
  | zero =>
    intro a h1 h2
    have ha : a = F + 1 := Nat.le_antisymm h1 (by omega)
    subst ha
    simp [runAttempts]
  | succ rem ih =>
    intro a h1 h2
    by_cases hc : F < a
    · have ha : a = F + 1 := Nat.le_antisymm h1 hc
      subst ha
      have hs : (impl (mk (F + 1))).success = true := by
        rw [h (F + 1)]; simp
      simp [runAttempts, hs]
    · have hs : (impl (mk a)).success = false := by
        rw [h a]; simp [hc]
      simp only [runAttempts, hs, Bool.false_eq_true, if_false]
      exact ih (a + 1) (by omega) (by omega)

/-- If the node fails on every attempt, the retry loop spends its whole budget
and returns the last attempt's result. -/
theorem runAttempts_all_fail (impl : NodeImpl) (mk : Nat → NodeContext)
    (h : ∀ a, (impl (mk a)).success = false) :
    ∀ rem a, runAttempts impl mk rem a = (impl (mk (a + rem)), a + rem) := by
  intro rem
  induction rem with
  | zero => intro a; simp [runAttempts]
  | succ rem ih =>
    intro a
    have harith : a + 1 + rem = a + (rem + 1) := by omega
    simp only [runAttempts, h a, Bool.false_eq_true, if_false]
    rw [ih (a + 1), harith]

/-! ## Claims about the retry policy -/

/-- C1: for every node whose `NodeSpec` has `max_retries = M ≥ 0` and whose
implementation fails `F ≤ M` consecutive attempts and then succeeds, `execute`
returns an `ExecutionResult` with `success = true` and the node's execute
operation is invoked exactly `F + 1` times. -/
theorem C1_retry_until_success (M F : Nat) (impl : NodeImpl)
    (hFM : F ≤ M)
    (himpl : ∀ a, (impl ⟨"n1", a, [], testGoal⟩).success = decide (F < a)) :
    (execute [("n1", impl)] (testGraph M) testGoal []).1.success = true ∧
    (execute [("n1", impl)] (testGraph M) testGoal []).2 = [("n1", F + 1)] := by
  have hrun : runAttempts impl (fun a => ⟨"n1", a, [], testGoal⟩) M 1
      = (impl ⟨"n1", F + 1, [], testGoal⟩, F + 1) :=
    runAttempts_eventual_success impl _ F himpl M 1 (by omega) (by omega)
  have hsucc : (impl ⟨"n1", F + 1, [], testGoal⟩).success = true := by
    rw [himpl (F + 1)]; simp
  simp [execute, validateGraph, testGraph, testNode, declared, execLoop,
    snapshotInputs, hrun, hsucc]

/-- C1 witness: `max_retries = 10`, five failures then success (the test
`test_executor_respects_custom_max_retries_high`): the run succeeds with six
invocations. -/
theorem C1_retry_until_success_witness :
    (execute [("n1", FlakyTestNode 5)] (testGraph 10) testGoal []).1.success = true ∧
    (execute [("n1", FlakyTestNode 5)] (testGraph 10) testGoal []).2 = [("n1", 6)] := by
  have h := C1_retry_until_success 10 5 (FlakyTestNode 5) (by decide) ?_
  · exact h
  · intro a
    by_cases hb : a ≤ 5
    · have : ¬ (5 < a) := by omega
      simp [FlakyTestNode, hb, this]
    · have : 5 < a := by omega
      simp [FlakyTestNode, hb, this]

/-- C2: for every node whose `NodeSpec` has `max_retries = M` and whose
implementation fails every attempt, `execute` returns failure after exactly
`M + 1` invocations, with error `"failed after {M} attempts: {last_error}"`
where the embedded count is the configured `max_retries` (not the total attempt
count) and `{last_error}` is the final `NodeResult`'s error text, verbatim. -/
theorem C2_retries_exhausted (M : Nat) (impl : NodeImpl)
    (himpl : ∀ a, (impl ⟨"n1", a, [], testGoal⟩).success = false) :
    execute [("n1", impl)] (testGraph M) testGoal []
      = (⟨false, [],
          some ("failed after " ++ toString M ++ " attempts: "
                ++ (impl ⟨"n1", M + 1, [], testGoal⟩).error)⟩,
         [("n1", M + 1)]) := by
  have hrun : runAttempts impl (fun a => ⟨"n1", a, [], testGoal⟩) M 1
      = (impl ⟨"n1", 1 + M, [], testGoal⟩, 1 + M) :=
    runAttempts_all_fail impl _ himpl M 1
  have h1M : 1 + M = M + 1 := Nat.add_comm 1 M
  rw [h1M] at hrun
  simp [execute, validateGraph, testGraph, testNode, declared, execLoop,
    snapshotInputs, hrun, himpl (M + 1)]

/-- C2 witness: `max_retries = 2` with an always-failing node (the test
`test_executor_respects_custom_max_retries_low`): failure after three
invocations with the fully formatted message. -/
theorem C2_retries_exhausted_witness :
    execute [("n1", AlwaysFailsNode)] (testGraph 2) testGoal []
      = (⟨false, [], some "failed after 2 attempts: Permanent error (attempt 3)"⟩,
         [("n1", 3)]) := by
  have h := C2_retries_exhausted 2 AlwaysFailsNode (fun a => rfl)
  exact h

/-- The node of the default-retries test: `max_retries` omitted. -/
def defaultNodeSpec : NodeSpec :=
  { id := "d1", name := "Default Node", node_type := "function", output_keys := ["result"] }

/-- The single-node graph around `defaultNodeSpec`. -/
def defaultGraph : GraphSpec :=
  { name := "Test Graph", entry_node := "d1", nodes := [defaultNodeSpec],
    edges := [], terminal_nodes := ["d1"] }

/-- C3: a `NodeSpec` that omits `max_retries` defaults to 3, so a permanently
failing node is invoked exactly 4 times and the run fails with an error
containing "failed after 3 attempts". -/
theorem C3_default_max_retries :
    defaultNodeSpec.max_retries = 3 ∧
    (execute [("d1", AlwaysFailsNode)] defaultGraph testGoal []).1.success = false ∧
    (execute [("d1", AlwaysFailsNode)] defaultGraph testGoal []).2 = [("d1", 4)] ∧
    strContains ((execute [("d1", AlwaysFailsNode)] defaultGraph testGoal []).1.error.getD "")
      "failed after 3 attempts" = true := by
  decide

/-! ## Claim about graph validation -/

/-- C4: graph validation accepts exactly the graphs in which every edge
endpoint, the entry node and every terminal entry resolve to a declared node
and every declared node has a registered implementation; on any violation,
`execute` returns one configuration error listing all collected violations and
performs no node invocation. -/
theorem C4_validation_aggregates (reg : List (String × NodeImpl)) (g : GraphSpec)
    (goal : Goal) (init : List (String × String)) :
    (validateGraph reg g = [] ↔ graphWellFormed reg g = true) ∧
    (validateGraph reg g ≠ [] →
      execute reg g goal init
        = (⟨false, init,
            some ("configuration error: " ++ String.intercalate "; " (validateGraph reg g))⟩,
           [])) := by
  have hif : ∀ (c : Bool) (m : String), ((if c then ([] : List String) else [m]) = []) ↔ c = true := by
    intro c m; cases c <;> simp
  constructor
  · simp only [validateGraph, graphWellFormed, List.append_eq_nil, flatMap_nil_iff, hif,
      Bool.and_eq_true, List.all_eq_true]
  · intro hne
    have hfalse : (validateGraph reg g).isEmpty = false := by
      cases hvg : validateGraph reg g with
      | nil => exact absurd hvg hne
      | cons a l => rfl
    simp [execute, hfalse]

/-- The graph of the C4 witness: its entry node is not declared. -/
def badGraph : GraphSpec :=
  { name := "g", entry_node := "ghost", nodes := [], edges := [], terminal_nodes := [] }

/-- C4 witness: a graph whose entry node is undeclared aborts with a
configuration error naming the violation and invokes no node. -/
theorem C4_validation_aggregates_witness :
    execute [] badGraph testGoal []
      = (⟨false, [], some "configuration error: entry node not declared: ghost"⟩, []) := by
  have h := (C4_validation_aggregates [] badGraph testGoal []).2 (by decide)
  exact h

/-! ## Credential preflight, embedded from `core/framework/credentials/validation.py`

External collaborators are parameters of the embedding: the companion library
`aden_tools` (its availability, its `CREDENTIAL_SPECS` table and its shell-config
reader) and the backing stores of `framework/credentials/storage.py`, whose
modules are not in the sources. -/

/-- Python truthiness of an `os.environ.get` result: a missing key and the
empty string are falsy. -/
def pyTruthy : Option String → Bool
  | some v => v != ""
  | none => false

/-- Read one variable of the process environment, modelled as a keyed list. -/
def envGet (env : List (String × String)) (k : String) : Option String :=
  env.lookup k

/-- Set one variable of the process environment. -/
def envSet (env : List (String × String)) (k v : String) : List (String × String) :=
  (k, v) :: env.filter (fun p => p.1 != k)

/-- From `validation.py` lines 16-38: `ensure_credential_key_env`. If
`HIVE_CREDENTIAL_KEY` is already truthy in the environment it returns at once;
otherwise, when the companion library imports (`libAvailable`), it consults the
shell-config reader (`shellFound`, `shellValue` model the pair returned by
`check_env_var_in_shell_config`) and sets the key when a truthy value was found.
The result pairs the new environment with the Python return value, which is
`None` on every path (the function is annotated `-> None`). -/
def ensure_credential_key_env (libAvailable shellFound : Bool) (shellValue : String)
    (env : List (String × String)) : List (String × String) × Option Bool :=
  if pyTruthy (envGet env "HIVE_CREDENTIAL_KEY") then (env, none)
  else if libAvailable then
    if shellFound && shellValue != "" then
      (envSet env "HIVE_CREDENTIAL_KEY" shellValue, none)
    else (env, none)
  else (env, none)

/-- One entry of the companion library's `CREDENTIAL_SPECS` table (external
data, a parameter of the embedding). An empty `credential_id` models `None`. -/
structure CredSpec where
  credential_id : String := ""
  env_var : String
  tools : List String := []
  node_types : List String := []
  help_url : String := ""
deriving DecidableEq

/-- From `validation.py` lines 41-49: the result of checking one credential. -/
structure CredentialCheck where
  env_var : String
  source : String
  used_by : String
  available : Bool
  help_url : String := ""
deriving DecidableEq

/-- Insert into a sorted list of strings. -/
def insertStr (x : String) : List String → List String
  | [] => [x]
  | y :: ys => if x ≤ y then x :: y :: ys else y :: insertStr x ys

/-- Python's `sorted` on a collection of strings. -/
def sortStrings : List String → List String
  | [] => []
  | x :: xs => insertStr x (sortStrings xs)

/-- Modelled from the spec (section 4.4): availability of a credential in the
backing stores the preflight consults — with the store key present, the
composite of the primary encrypted store and the environment-variable fallback;
without it, the environment-variable store alone (`validation.py` lines 86-92,
whose storage classes are not in the sources). -/
def storeAvailable (hasKey : Bool) (encE envE : String → Bool) (cred_id : String) : Bool :=
  if hasKey then encE cred_id || envE cred_id else envE cred_id

/-- From `validation.py` lines 100-105: `get_source` — the reported source of a
credential, following the backing-store priority order. -/
def get_source (hasKey : Bool) (encE envE : String → Bool) (cred_id : String) : String :=
  if hasKey && encE cred_id then "encrypted store"
  else if envE cred_id then "environment variable"
  else "not found"

/-- From `validation.py` line 109: `spec.credential_id or cred_name`. -/
def credId (cred_name : String) (spec : CredSpec) : String :=
  if spec.credential_id != "" then spec.credential_id else cred_name

/-- From `validation.py` lines 107-116: `check_credential`. -/
def check_credential (hasKey : Bool) (encE envE : String → Bool)
    (cred_name : String) (spec : CredSpec) (used_by : String) : CredentialCheck :=
  { env_var := spec.env_var,
    source := get_source hasKey encE envE (credId cred_name spec),
    used_by := used_by,
    available := storeAvailable hasKey encE envE (credId cred_name spec),
    help_url := spec.help_url }

/-- The `(tool, credential name)` pairs of the spec table, in table order. -/
def toolPairs (specs : List (String × CredSpec)) : List (String × String) :=
  specs.flatMap (fun ns => ns.2.tools.map (fun t => (t, ns.1)))

/-- From `validation.py` line 95: `tool_to_cred` — a Python dict comprehension,
so a later entry overwrites an earlier one (last binding wins). -/
def tool_to_cred (specs : List (String × CredSpec)) (tool : String) : Option String :=
  (toolPairs specs).reverse.lookup tool

/-- The `(node type, credential name)` pairs of the spec table, in table order. -/
def nodeTypePairs (specs : List (String × CredSpec)) : List (String × String) :=
  specs.flatMap (fun ns => ns.2.node_types.map (fun nt => (nt, ns.1)))

/-- From `validation.py` lines 96-98: `node_type_to_cred` (last binding wins). -/
def node_type_to_cred (specs : List (String × CredSpec)) (nt : String) : Option String :=
  (nodeTypePairs specs).reverse.lookup nt

/-- From `validation.py` line 66: the set of required tools, as Python's
`sorted` would enumerate it. -/
def requiredTools (nodes : List NodeSpec) : List String :=
  sortStrings (((nodes.filter (fun n => !n.tools.isEmpty)).flatMap (fun n => n.tools)).dedup)

/-- From `validation.py` line 67: the set of node types, sorted for iteration. -/
def nodeTypesOf (nodes : List NodeSpec) : List String :=
  sortStrings ((nodes.map (fun n => n.node_type)).dedup)

/-- From `validation.py` lines 122-127: the tool loop, threading the `checked`
set and the accumulated checks. -/
def checksAfterTools (specs : List (String × CredSpec)) (hasKey : Bool)
    (encE envE : String → Bool) (required_tools : List String) :
    List String × List CredentialCheck :=
  required_tools.foldl (fun acc tool =>
    match tool_to_cred specs tool with
    | some cred_name =>
      if cred_name != "" && !(acc.1.contains cred_name) then
        match specs.lookup cred_name with
        | some spec =>
          let affected := String.intercalate ", "
            (sortStrings (required_tools.filter (fun t => spec.tools.contains t)))
          (cred_name :: acc.1,
           acc.2 ++ [check_credential hasKey encE envE cred_name spec affected])
        | none => acc
      else acc
    | none => acc) ([], [])

/-- From `validation.py` lines 129-134: the node-type loop, continuing from the
tool loop's accumulator; `used_by` gains the " nodes" suffix. -/
def checksAfterNodeTypes (specs : List (String × CredSpec)) (hasKey : Bool)
    (encE envE : String → Bool) (node_types : List String)
    (init : List String × List CredentialCheck) : List String × List CredentialCheck :=
  node_types.foldl (fun acc nt =>
    match node_type_to_cred specs nt with
    | some cred_name =>
      if cred_name != "" && !(acc.1.contains cred_name) then
        match specs.lookup cred_name with
        | some spec =>
          let affected := String.intercalate ", "
            (sortStrings (node_types.filter (fun t => spec.node_types.contains t)))
          (cred_name :: acc.1,
           acc.2 ++ [check_credential hasKey encE envE cred_name spec (affected ++ " nodes")])
        | none => acc
      else acc
    | none => acc) init

/-- From `validation.py` lines 118-134: all deduplicated credential checks for a
node list. -/
def credentialChecks (specs : List (String × CredSpec)) (hasKey : Bool)
    (encE envE : String → Bool) (nodes : List NodeSpec) : List CredentialCheck :=
  (checksAfterNodeTypes specs hasKey encE envE (nodeTypesOf nodes)
    (checksAfterTools specs hasKey encE envE (requiredTools nodes))).2

/-- The 60-dash separator of the printed summary. -/
def dashLine : String := String.mk (List.replicate 60 '-')

/-- From `validation.py` lines 140-148: the printed lines for one check. -/
def checkLines (c : CredentialCheck) : List String :=
  ("  " ++ (if c.available then "✓" else "✗") ++ " " ++ c.env_var
    ++ (if c.available then "" else " (MISSING)"))
  :: ("      " ++ (if c.available then "Source" else "Required by") ++ ": "
    ++ (if c.available then c.source else c.used_by))
  :: (if c.available then ["      Used by: " ++ c.used_by] else [])

/-- From `validation.py` lines 137-149: the full printed summary. -/
def summaryLines (checks : List CredentialCheck) : List String :=
  "\n📋 Credential Status:" :: dashLine :: (checks.flatMap checkLines ++ [dashLine])

/-- From `validation.py` lines 156-164: the lines of the `CredentialError`
message — a header, then for each missing credential its environment variable
and dependents, plus its remediation link when present, and a closing tip. -/
def credentialErrorLines (missing : List CredentialCheck) : List String :=
  "Missing required credentials:\n"
  :: (missing.flatMap (fun c =>
      ("  " ++ c.env_var ++ " for " ++ c.used_by)
      :: (if c.help_url != "" then ["    Get it at: " ++ c.help_url] else [])))
  ++ ["\nTo fix: run /hive-credentials in Claude Code."
      ++ "\nIf you\x27ve already set up credentials, restart your terminal to load them."]

/-- The observable outcome of `validate_agent_credentials`: what it printed,
the checks it performed, and the `CredentialError` message when it raises
(`none` when it returns normally). -/
structure ValidationOutcome where
  printed : List String
  checks : List CredentialCheck
  error : Option String
deriving DecidableEq

/-- From `validation.py` lines 52-165: `validate_agent_credentials(nodes, quiet)`.
`libAvailable` models whether the `aden_tools` import succeeds (lines 69-79);
when it fails the function returns at once. Otherwise it builds the
deduplicated checks, prints the summary unless `quiet` (or no checks), and
raises a `CredentialError` exactly when some credential is missing. -/
def validate_agent_credentials (specs : List (String × CredSpec)) (hasKey : Bool)
    (encE envE : String → Bool) (libAvailable : Bool)
    (nodes : List NodeSpec) (quiet : Bool) : ValidationOutcome :=
  if !libAvailable then { printed := [], checks := [], error := none }
  else
    let checks := credentialChecks specs hasKey encE envE nodes
    let printed := if !quiet && !checks.isEmpty then summaryLines checks else []
    let missing := checks.filter (fun c => !c.available)
    { printed := printed,
      checks := checks,
      error := if missing.isEmpty then none
               else some (String.intercalate "\n" (credentialErrorLines missing)) }

/-! ## Lemmas about the environment model -/

/-- Looking up a key other than the one filtered out is unchanged. -/
theorem lookup_filter_ne (k k' : String) (h : k' ≠ k) :
    ∀ env : List (String × String),
      (env.filter (fun p => p.1 != k)).lookup k' = env.lookup k' := by
  intro env
  induction env with
  | nil => rfl
  | cons p rest ih =>
    obtain ⟨a, b⟩ := p
    by_cases hp : a = k
    · subst hp
      have hlk : (k' == a) = false := by simp [h]
      simp [List.filter_cons, List.lookup, hlk, ih]
    · have hbne : (a != k) = true := by simp [hp]
      simp only [List.filter_cons, hbne, if_true, List.lookup, ih]

/-- After `envSet`, the written key reads back the written value. -/
theorem envGet_envSet_same (env : List (String × String)) (k v : String) :
    envGet (envSet env k v) k = some v := by
  simp [envGet, envSet, List.lookup]

/-- After `envSet`, every other key is unchanged. -/
theorem envGet_envSet_ne (env : List (String × String)) (k v k' : String) (h : k' ≠ k) :
    envGet (envSet env k v) k' = envGet env k' := by
  have hlk : (k' == k) = false := by simp [h]
  simp only [envGet, envSet, List.lookup, hlk]
  exact lookup_filter_ne k k' h env

/-! ## Claims about the secret bootstrap -/

/-- C8 counterexample: with `HIVE_CREDENTIAL_KEY` present in the environment
(bound to the empty string) and a value available in the shell configuration,
`ensure_credential_key_env` changes the environment, so "present implies
unchanged" fails as stated. -/
theorem C8_bootstrap_counterexample :
    envGet [("HIVE_CREDENTIAL_KEY", "")] "HIVE_CREDENTIAL_KEY" = some "" ∧
    (ensure_credential_key_env true true "k" [("HIVE_CREDENTIAL_KEY", "")]).1
      ≠ [("HIVE_CREDENTIAL_KEY", "")] := by
  decide

/-- C8 (amended): `ensure_credential_key_env` is idempotent and mutates no
environment variable other than `HIVE_CREDENTIAL_KEY`; when the key is already
present with a non-empty (truthy) value, the environment is left unchanged.
(A key present with an empty value is treated as absent and may be
overwritten.) -/
theorem C8_bootstrap_idempotent_frame (lib sf : Bool) (sv : String)
    (env : List (String × String)) :
    (pyTruthy (envGet env "HIVE_CREDENTIAL_KEY") = true →
      (ensure_credential_key_env lib sf sv env).1 = env) ∧
    (∀ k, k ≠ "HIVE_CREDENTIAL_KEY" →
      envGet (ensure_credential_key_env lib sf sv env).1 k = envGet env k) ∧
    (ensure_credential_key_env lib sf sv (ensure_credential_key_env lib sf sv env).1).1
      = (ensure_credential_key_env lib sf sv env).1 := by
  refine ⟨?_, ?_, ?_⟩
  · intro h
    simp [ensure_credential_key_env, h]
  · intro k hk
    by_cases h1 : pyTruthy (envGet env "HIVE_CREDENTIAL_KEY") = true
    · simp [ensure_credential_key_env, h1]
    · have h1' : pyTruthy (envGet env "HIVE_CREDENTIAL_KEY") = false :=
        Bool.eq_false_iff.mpr h1
      cases lib with
      | false => simp [ensure_credential_key_env, h1']
      | true =>
        by_cases h2 : (sf && sv != "") = true
        · simp [ensure_credential_key_env, h1', h2]
          exact envGet_envSet_ne env _ sv k hk
        · have h2' : (sf && sv != "") = false := Bool.eq_false_iff.mpr h2
          simp [ensure_credential_key_env, h1', h2']
  · by_cases h1 : pyTruthy (envGet env "HIVE_CREDENTIAL_KEY") = true
    · simp [ensure_credential_key_env, h1]
    · have h1' : pyTruthy (envGet env "HIVE_CREDENTIAL_KEY") = false :=
        Bool.eq_false_iff.mpr h1
      cases lib with
      | false => simp [ensure_credential_key_env, h1']
      | true =>
        by_cases h2 : (sf && sv != "") = true
        · have hset : pyTruthy (envGet (envSet env "HIVE_CREDENTIAL_KEY" sv)
              "HIVE_CREDENTIAL_KEY") = true := by
            rw [envGet_envSet_same]
            have : (sv != "") = true := (Bool.and_eq_true sf (sv != "")).mp h2 |>.2
            simpa [pyTruthy] using this
          simp [ensure_credential_key_env, h1', h2, hset]
        · have h2' : (sf && sv != "") = false := Bool.eq_false_iff.mpr h2
          simp [ensure_credential_key_env, h1', h2']

/-- C8 witness: a truthy key is left alone; other variables survive a fresh
load; loading twice equals loading once. -/
theorem C8_bootstrap_idempotent_frame_witness :
    (ensure_credential_key_env true true "k" [("HIVE_CREDENTIAL_KEY", "x")]).1
      = [("HIVE_CREDENTIAL_KEY", "x")] ∧
    envGet (ensure_credential_key_env true true "k" [("OTHER", "v")]).1 "OTHER" = some "v" ∧
    (ensure_credential_key_env true true "k"
        (ensure_credential_key_env true true "k" []).1).1
      = (ensure_credential_key_env true true "k" []).1 :=
  ⟨(C8_bootstrap_idempotent_frame true true "k" [("HIVE_CREDENTIAL_KEY", "x")]).1 (by decide),
   (C8_bootstrap_idempotent_frame true true "k" [("OTHER", "v")]).2.1 "OTHER" (by decide),
   (C8_bootstrap_idempotent_frame true true "k" []).2.2⟩

/-- C9 counterexample: one call freshly loads the key (the environment changes)
and another does not, yet both return the same value (`None`), so the return
value does not indicate whether a value was freshly loaded. -/
theorem C9_bootstrap_counterexample :
    (ensure_credential_key_env true true "k" []).2
      = (ensure_credential_key_env true true "k" [("HIVE_CREDENTIAL_KEY", "x")]).2 ∧
    (ensure_credential_key_env true true "k" []).1 ≠ [] ∧
    (ensure_credential_key_env true true "k" [("HIVE_CREDENTIAL_KEY", "x")]).1
      = [("HIVE_CREDENTIAL_KEY", "x")] := by
  decide

/-- C9 (amended): `ensure_credential_key_env` returns `None` on every path —
whether a value was freshly loaded is observable only through the environment,
never through the return value. -/
theorem C9_bootstrap_returns_none (lib sf : Bool) (sv : String)
    (env : List (String × String)) :
    (ensure_credential_key_env lib sf sv env).2 = none := by
  unfold ensure_credential_key_env
  by_cases h1 : pyTruthy (envGet env "HIVE_CREDENTIAL_KEY") = true
  · simp [h1]
  · have h1' : pyTruthy (envGet env "HIVE_CREDENTIAL_KEY") = false :=
      Bool.eq_false_iff.mpr h1
    cases lib with
    | false => simp [h1']
    | true =>
      by_cases h2 : (sf && sv != "") = true
      · simp [h1', h2]
      · have h2' : (sf && sv != "") = false := Bool.eq_false_iff.mpr h2
        simp [h1', h2']

/-! ## Lemmas about the credential-error message -/

/-- Every missing credential's entry line appears in the error message lines. -/
theorem mem_credentialErrorLines_entry (m : List CredentialCheck) (c : CredentialCheck)
    (hc : c ∈ m) :
    ("  " ++ c.env_var ++ " for " ++ c.used_by) ∈ credentialErrorLines m := by
  unfold credentialErrorLines
  apply List.mem_cons_of_mem
  apply List.mem_append_left
  exact List.mem_flatMap.mpr ⟨c, hc, List.mem_cons_self _ _⟩

/-- Every missing credential's remediation link, when present, appears in the
error message lines. -/
theorem mem_credentialErrorLines_help (m : List CredentialCheck) (c : CredentialCheck)
    (hc : c ∈ m) (hu : c.help_url ≠ "") :
    ("    Get it at: " ++ c.help_url) ∈ credentialErrorLines m := by
  unfold credentialErrorLines
  apply List.mem_cons_of_mem
  apply List.mem_append_left
  refine List.mem_flatMap.mpr ⟨c, hc, ?_⟩
  apply List.mem_cons_of_mem
  simp [hu]

/-! ## Claims about the credential preflight -/

/-- C5: with the companion library available, `validate_agent_credentials`
raises exactly when some required credential is unavailable in the consulted
backing stores, the raised message is the joined error lines for all missing
credentials, and those lines contain every missing credential's entry and, when
one is available, its remediation link — never only the first. -/
theorem C5_aggregate_credential_error (specs : List (String × CredSpec)) (hasKey : Bool)
    (encE envE : String → Bool) (nodes : List NodeSpec) (quiet : Bool) :
    ((validate_agent_credentials specs hasKey encE envE true nodes quiet).error.isSome = true
      ↔ ∃ c ∈ (validate_agent_credentials specs hasKey encE envE true nodes quiet).checks,
          c.available = false) ∧
    ((validate_agent_credentials specs hasKey encE envE true nodes quiet).error
      = if ((validate_agent_credentials specs hasKey encE envE true nodes quiet).checks.filter
              (fun c => !c.available)).isEmpty
        then none
        else some (String.intercalate "\n" (credentialErrorLines
          ((validate_agent_credentials specs hasKey encE envE true nodes quiet).checks.filter
            (fun c => !c.available))))) ∧
    (∀ c ∈ (validate_agent_credentials specs hasKey encE envE true nodes quiet).checks,
      c.available = false →
        ("  " ++ c.env_var ++ " for " ++ c.used_by)
          ∈ credentialErrorLines
              ((validate_agent_credentials specs hasKey encE envE true nodes quiet).checks.filter
                (fun c => !c.available)) ∧
        (c.help_url ≠ "" →
          ("    Get it at: " ++ c.help_url)
            ∈ credentialErrorLines
                ((validate_agent_credentials specs hasKey encE envE true nodes quiet).checks.filter
                  (fun c => !c.available)))) := by
  refine ⟨?_, rfl, ?_⟩
  · show (if ((credentialChecks specs hasKey encE envE nodes).filter
          (fun c => !c.available)).isEmpty then none
        else some (String.intercalate "\n" (credentialErrorLines
          ((credentialChecks specs hasKey encE envE nodes).filter
            (fun c => !c.available))))).isSome = true
      ↔ ∃ c ∈ credentialChecks specs hasKey encE envE nodes, c.available = false
    by_cases hm : (credentialChecks specs hasKey encE envE nodes).filter
        (fun c => !c.available) = []
    · rw [hm]
      simp only [List.isEmpty_nil, if_true, Option.isSome_none]
      constructor
      · intro h; exact absurd h (by decide)
      · rintro ⟨c, hc, hav⟩
        have := List.filter_eq_nil_iff.mp hm c hc
        simp [hav] at this
    · have hne : ((credentialChecks specs hasKey encE envE nodes).filter
          (fun c => !c.available)).isEmpty = false := by
        simpa [List.isEmpty_iff] using hm
      rw [hne]
      simp only [Bool.false_eq_true, if_false, Option.isSome_some, true_iff]
      obtain ⟨c, hc⟩ := List.exists_mem_of_ne_nil _ hm
      have hmem := List.mem_filter.mp hc
      exact ⟨c, hmem.1, by simpa using hmem.2⟩
  · intro c hc hav
    have hcf : c ∈ (validate_agent_credentials specs hasKey encE envE true nodes quiet).checks.filter
        (fun c => !c.available) :=
      List.mem_filter.mpr ⟨hc, by simp [hav]⟩
    exact ⟨mem_credentialErrorLines_entry _ c hcf,
           fun hu => mem_credentialErrorLines_help _ c hcf hu⟩

/-- The spec table of the C5 and C6 witnesses: one credential guarding one
tool, with a remediation link. -/
def specTableW : List (String × CredSpec) :=
  [("cred1", { credential_id := "", env_var := "API_KEY", tools := ["tool1"],
               node_types := [], help_url := "https://example.com/key" })]

/-- A node list requiring `tool1`. -/
def nodesW : List NodeSpec :=
  [{ id := "a", name := "A", node_type := "llm", tools := ["tool1"] }]

/-- C5 witness: with no store holding the credential, validation raises and the
error lines carry the credential's entry and remediation link. -/
theorem C5_aggregate_credential_error_witness :
    (validate_agent_credentials specTableW false (fun _ => false) (fun _ => false)
        true nodesW true).error.isSome = true ∧
    ("  API_KEY for tool1")
      ∈ credentialErrorLines
          ((validate_agent_credentials specTableW false (fun _ => false) (fun _ => false)
              true nodesW true).checks.filter (fun c => !c.available)) ∧
    ("    Get it at: https://example.com/key")
      ∈ credentialErrorLines
          ((validate_agent_credentials specTableW false (fun _ => false) (fun _ => false)
              true nodesW true).checks.filter (fun c => !c.available)) := by
  have h := C5_aggregate_credential_error specTableW false (fun _ => false) (fun _ => false)
    nodesW true
  refine ⟨h.1.mpr (by decide), ?_, ?_⟩
  · exact (h.2.2 ⟨"API_KEY", "not found", "tool1", false, "https://example.com/key"⟩
      (by decide) rfl).1
  · exact (h.2.2 ⟨"API_KEY", "not found", "tool1", false, "https://example.com/key"⟩
      (by decide) rfl).2 (by decide)

/-- C6: the reported source follows the backing-store priority order — with the
encrypted store unlocked, a credential present there reports "encrypted store"
(even if also in the environment), and a credential present only via
environment variable reports "environment variable". -/
theorem C6_source_priority (hasKey : Bool) (encE envE : String → Bool) (cred : String) :
    (hasKey = true → encE cred = true →
      get_source hasKey encE envE cred = "encrypted store") ∧
    (encE cred = false → envE cred = true →
      get_source hasKey encE envE cred = "environment variable") := by
  constructor
  · intro hk he
    simp [get_source, hk, he]
  · intro he hv
    simp [get_source, he, hv]

/-- C6 witness: both priority cases at concrete stores. -/
theorem C6_source_priority_witness :
    get_source true (fun _ => true) (fun _ => true) "c" = "encrypted store" ∧
    get_source true (fun _ => false) (fun _ => true) "c" = "environment variable" :=
  ⟨(C6_source_priority true (fun _ => true) (fun _ => true) "c").1 rfl rfl,
   (C6_source_priority true (fun _ => false) (fun _ => true) "c").2 rfl rfl⟩

/-- C7: when the companion library is unavailable, `validate_agent_credentials`
is a no-op — it returns normally (no error), performs no credential check and
produces no output, for every node list and either quiet setting. -/
theorem C7_noop_without_library (specs : List (String × CredSpec)) (hasKey : Bool)
    (encE envE : String → Bool) (nodes : List NodeSpec) (quiet : Bool) :
    validate_agent_credentials specs hasKey encE envE false nodes quiet
      = { printed := [], checks := [], error := none } :=
  rfl

/-- C10: the `quiet` flag affects only the printed summary — the checks
performed and the raised error (including its exact message) are identical for
`quiet = true` and `quiet = false`. -/
theorem C10_quiet_only_affects_summary (specs : List (String × CredSpec)) (hasKey : Bool)
    (encE envE : String → Bool) (lib : Bool) (nodes : List NodeSpec) :
    (validate_agent_credentials specs hasKey encE envE lib nodes true).error
      = (validate_agent_credentials specs hasKey encE envE lib nodes false).error ∧
    (validate_agent_credentials specs hasKey encE envE lib nodes true).checks
      = (validate_agent_credentials specs hasKey encE envE lib nodes false).checks := by
  cases lib with
  | false => exact ⟨rfl, rfl⟩
  | true => exact ⟨rfl, rfl⟩
